import Mathlib

/-!
Shallow embedding of the `reuters_style` Python library
(`src/reuters_style/__init__.py`) and proofs about its specification.

Modelling conventions:
* Python strings are `List Char` (a Python string is a sequence of
  characters); the ASCII fragment of Python's character classification
  (`str.isupper`, `str.isalnum`) is modelled with Lean's ASCII
  `Char.isUpper`/`Char.isLower`/`Char.isAlphanum`, which agree with
  Python on ASCII input.
* A dynamically typed argument is a `PyVal`: either a string or one of
  the representative non-string values; `isinstance(x, str)` is the
  match on the `str` constructor.
* `raise ValueError(msg)` / `raise TypeError(msg)` is `Except.error`
  carrying the exception class and message; a normal return is `.ok`.
* `datetime` objects are records of the fields the code reads
  (`hour`, `minute`, `month`, `day`, `year`, `tzinfo`); a `tzinfo` is
  its `%Z` abbreviation, its UTC offset in minutes, and a flag `eqUtc`
  recording whether the object compares equal to `datetime.timezone.utc`
  (Python's `dt.tzinfo != timezone.utc` is an object comparison, not an
  offset comparison: e.g. `pytz.utc != timezone.utc`).
* `str(int)` / `%-d` / `%Y` rendering is `pyStr`, a decimal rendering
  defined below; `f"{m:02d}"` and `%H%M` zero-padding is `pad2`.
-/

namespace ReutersStyle

/-- Exception class of a raised Python exception. -/
inductive ExcClass where
  | typeError
  | valueError
deriving DecidableEq, Repr

/-- A raised Python exception: its class and its message. -/
structure PyError where
  cls : ExcClass
  msg : String
deriving DecidableEq, Repr

/-- A dynamically typed Python value handed to a validator:
a string, or a representative non-string (an int or `None`). -/
inductive PyVal where
  | str (s : List Char)
  | intVal (n : Int)
  | noneVal
deriving DecidableEq, Repr

/-- Python: a character is *cased* (ASCII fragment). -/
def pyIsCased (c : Char) : Bool :=
  c.isUpper || c.isLower

/-- Python `s.isupper()` (ASCII fragment): at least one cased character,
and every cased character is uppercase. -/
def pyIsUpper (s : List Char) : Bool :=
  s.any pyIsCased && s.all (fun c => !(pyIsCased c) || c.isUpper)

/-- Python `s.isalnum()` (ASCII fragment): non-empty and every character
alphanumeric. -/
def pyIsAlnum (s : List Char) : Bool :=
  !s.isEmpty && s.all Char.isAlphanum

/-- Python `s.split(sep)` for a one-character separator. -/
def pySplit (s : List Char) (sep : Char) : List (List Char) :=
  match s with
  | [] => [[]]
  | c :: cs =>
    if c = sep then
      [] :: pySplit cs sep
    else
      match pySplit cs sep with
      | [] => [[c]]
      | t :: ts => (c :: t) :: ts

/-- Python `s.endswith(c)` for a one-character suffix. -/
def pyEndsWith (s : List Char) (c : Char) : Bool :=
  s.getLast? = some c

/-- Fuel-driven decimal digit rendering (most significant digit first). -/
def decDigits (fuel : Nat) (n : Nat) : List Char :=
  match fuel with
  | 0 => []
  | fuel + 1 =>
    if n < 10 then [Nat.digitChar n]
    else decDigits fuel (n / 10) ++ [Nat.digitChar (n % 10)]

/-- Python `str(n)` for a natural number (also `%-d`, `%Y` rendering). -/
def pyStr (n : Nat) : String :=
  ⟨decDigits (n + 1) n⟩

/-- Python `f"{n:02d}"` for `n < 100`: zero-pad to two digits. -/
def pad2 (n : Nat) : String :=
  if n < 10 then "0" ++ pyStr n else pyStr n

/-- `pat` occurs as a contiguous substring of `s`. -/
def containsSub (pat : List Char) : List Char → Bool
  | [] => pat.isEmpty
  | c :: rest => pat.isPrefixOf (c :: rest) || containsSub pat rest

/-- `validate_packaging_slug` (lines 259–350 of `__init__.py`). -/
def validate_packaging_slug (v : PyVal) : Except PyError Bool :=
  match v with
  | .str slug =>
    if slug.isEmpty then
      .error ⟨.valueError, "Packaging slug cannot be empty."⟩
    else if slug.length > 64 then
      .error ⟨.valueError, "Packaging slug cannot be longer than 64 characters."⟩
    else if !pyIsUpper slug then
      .error ⟨.valueError,
        "Packaging slug can only contain uppercase letters, hyphens and slashes."⟩
    else if !pyEndsWith slug '/' then
      .error ⟨.valueError, "Packaging slug must end with a slash."⟩
    else if slug.count '/' ≠ 1 then
      .error ⟨.valueError, "Packaging slug can only contain one slash."⟩
    else
      let terms := pySplit ((pySplit slug '/').headD []) '-'
      if terms.length < 2 ∨ terms.length > 5 then
        .error ⟨.valueError,
          "Packaging slug must contain two to five terms separated by hyphens."⟩
      else if terms.any (fun t => t.length < 2) then
        .error ⟨.valueError, "Packaging slug terms must be at least two characters long."⟩
      else if terms.any (fun t => !pyIsAlnum t) then
        .error ⟨.valueError, "Packaging slug terms can only be alphanumeric."⟩
      else if terms.length ≠ terms.eraseDups.length then
        .error ⟨.valueError, "Packaging slug terms cannot be duplicated."⟩
      else
        .ok true
  | _ => .error ⟨.valueError, "Packaging slug must be a string."⟩

/-- `validate_wild_slug` (lines 353–436 of `__init__.py`). -/
def validate_wild_slug (v : PyVal) : Except PyError Bool :=
  match v with
  | .str slug =>
    if slug.isEmpty then
      .error ⟨.valueError, "Wild slug cannot be empty."⟩
    else if slug.length > 64 then
      .error ⟨.valueError, "Wild slug cannot be longer than 64 characters."⟩
    else if !pyIsUpper slug then
      .error ⟨.valueError,
        "Wild slug can only contain uppercase letters, hyphens and slashes."⟩
    else if slug.contains '/' then
      .error ⟨.valueError, "Wild slug cannot contain a slash."⟩
    else
      let terms := pySplit slug '-'
      if terms.length > 5 then
        .error ⟨.valueError, "Wild slug must contain one to five terms separated by hyphens."⟩
      else if terms.any (fun t => t.length < 2) then
        .error ⟨.valueError, "Wild slug terms must be at least two characters long."⟩
      else if terms.any (fun t => !pyIsAlnum t) then
        .error ⟨.valueError, "Wild slug terms can only be alphanumeric."⟩
      else if terms.length ≠ terms.eraseDups.length then
        .error ⟨.valueError, "Wild slug terms cannot be duplicated."⟩
      else
        .ok true
  | _ => .error ⟨.valueError, "Wild slug must be a string."⟩

/-- `validate_slug` (lines 194–256 of `__init__.py`): check whether a
full slug is valid.  The `isinstance(slug, str)` guard is the match on
`PyVal.str`; the final `| _` arm of the inner split models Python's
unpacking error on `slug.split("/")`, which the preceding
one-slash check makes unreachable. -/
def validate_slug (v : PyVal) : Except PyError Bool :=
  match v with
  | .str slug =>
    if slug.isEmpty then
      .error ⟨.valueError, "Full slug cannot be empty."⟩
    else if slug.length > 64 then
      .error ⟨.valueError, "Full slug cannot be longer than 64 characters."⟩
    else if slug.count '/' ≠ 1 then
      .error ⟨.valueError, "Full slug can only contain one slash."⟩
    else
      match pySplit slug '/' with
      | [packaging_slug, wild_slug] => do
        let _ ← validate_packaging_slug (.str (packaging_slug ++ ['/']))
        if !wild_slug.isEmpty then
          let _ ← validate_wild_slug (.str wild_slug)
          pure true
        else
          pure true
      | _ => .error ⟨.valueError, "too many values to unpack (expected 2)"⟩
  | _ => .error ⟨.valueError, "Full slug must be a string."⟩

/-- A Python `tzinfo` as the `time` function observes it:
its `strftime("%Z")` abbreviation, its UTC offset in minutes, and
whether the object compares equal to `datetime.timezone.utc`. -/
structure PyTzinfo where
  abbreviation : String
  utcoffsetMinutes : Int
  eqUtc : Bool
deriving DecidableEq, Repr

/-- A Python `datetime`, restricted to the fields the library reads. -/
structure PyDatetime where
  year : Nat
  month : Nat
  day : Nat
  hour : Nat
  minute : Nat
  tzinfo : Option PyTzinfo
deriving Repr

/-- The fixed month-abbreviation list of `date` (lines 42–55). -/
def months : List String :=
  ["Jan.", "Feb.", "March", "April", "May", "June",
   "July", "Aug.", "Sept.", "Oct.", "Nov.", "Dec."]

/-- `date` (lines 7–56 of `__init__.py`):
`f"{months[dt.month - 1]} {dt.strftime('%-d')}, {dt.strftime('%Y')}"`.
`months[dt.month - 1]` is modelled with a default for the
out-of-range case that a well-formed `datetime` (month 1–12) excludes. -/
def date (dt : PyDatetime) : String :=
  months.getD (dt.month - 1) "" ++ " " ++ pyStr dt.day ++ ", " ++ pyStr dt.year

/-- Lines 142–166 of `time`: the 12-hour text built from the hour and
minute before the timezone-suffix policy is applied. -/
def timeBase (hour0 minute : Nat) : String :=
  if minute = 0 ∧ hour0 = 0 then
    "midnight"
  else if minute = 0 ∧ hour0 = 12 then
    "noon"
  else
    -- the mutable `hour`/`period` computation of lines 152–160
    let hp : Nat × String :=
      if hour0 < 12 then
        (if hour0 = 0 then 12 else hour0, "a.m.")
      else
        (if hour0 > 12 then hour0 - 12 else hour0, "p.m.")
    if minute = 0 then
      pyStr hp.1 ++ " " ++ hp.2
    else
      pyStr hp.1 ++ ":" ++ pad2 minute ++ " " ++ hp.2

/-- Minutes-of-day of `dt.astimezone(timezone.utc)`: the local
minutes-of-day shifted back by the UTC offset, wrapped to a day. -/
def utcMinutesOfDay (dt : PyDatetime) (offset : Int) : Nat :=
  (((dt.hour * 60 + dt.minute : Int) - offset) % 1440).toNat

/-- `dt.astimezone(timezone.utc).strftime('%H%M')` (line 188). -/
def utcHHMM (dt : PyDatetime) (tz : PyTzinfo) : String :=
  pad2 (utcMinutesOfDay dt tz.utcoffsetMinutes / 60) ++
    pad2 (utcMinutesOfDay dt tz.utcoffsetMinutes % 60)

/-- `time` (lines 97–191 of `__init__.py`).  `if dt.tzinfo:` is the
match on `Option PyTzinfo` (a `tzinfo` object is always truthy);
`dt.tzinfo != timezone.utc` is the recorded object comparison `eqUtc`. -/
def time (dt : PyDatetime) (include_timezone : Bool := true) : String :=
  let formatted_time := timeBase dt.hour dt.minute
  if include_timezone then
    match dt.tzinfo with
    | some tz =>
      let abbreviation := tz.abbreviation
      let abbreviation := if abbreviation = "UTC" then "GMT" else abbreviation
      formatted_time ++ " " ++ abbreviation
    | none => formatted_time ++ " GMT"
  else
    match dt.tzinfo with
    | some tz =>
      if !tz.eqUtc then formatted_time ++ " (" ++ utcHHMM dt tz ++ " GMT)"
      else formatted_time
    | none => formatted_time

/-- The `Slug` dataclass (lines 462–523). -/
structure Slug where
  packaging_slug : List Char
  wild_slug : List Char
deriving DecidableEq, Repr

/-- `Slug.__str__`: concatenation of the two parts. -/
def Slug.toText (s : Slug) : List Char :=
  s.packaging_slug ++ s.wild_slug

/-- `Slug.full_slug` property: `str(self)`. -/
def Slug.full_slug (s : Slug) : List Char :=
  s.toText

/-- `Slug.validate`: `validate_slug(str(self))`. -/
def Slug.validate (s : Slug) : Except PyError Bool :=
  validate_slug (.str s.toText)

/-!
Spec-side model of the validators, from the spec's words (§4.2):
each validator is an *ordered* list of checks, and the reported failure
is the description attached to the *first* violated check.
-/

/-- The first violated rule of an ordered rule list: each entry pairs
"this check is violated" with the failure it reports. -/
def firstViolated : List (Bool × PyError) → Option PyError
  | [] => none
  | (bad, e) :: rest => if bad then some e else firstViolated rest

/-- Fail-fast outcome: the first violation if any, else `true`. -/
def ofViolation : Option PyError → Except PyError Bool
  | none => .ok true
  | some e => .error e

/-- Spec §4.2 `validate_wild_slug`: the ordered checklist. -/
def wildSlugFirstViolation (v : PyVal) : Option PyError :=
  match v with
  | .str s =>
    firstViolated
      [(s.isEmpty, ⟨.valueError, "Wild slug cannot be empty."⟩),
       (s.length > 64, ⟨.valueError, "Wild slug cannot be longer than 64 characters."⟩),
       (!pyIsUpper s,
        ⟨.valueError, "Wild slug can only contain uppercase letters, hyphens and slashes."⟩),
       (s.contains '/', ⟨.valueError, "Wild slug cannot contain a slash."⟩),
       ((pySplit s '-').length > 5,
        ⟨.valueError, "Wild slug must contain one to five terms separated by hyphens."⟩),
       ((pySplit s '-').any (fun t => t.length < 2),
        ⟨.valueError, "Wild slug terms must be at least two characters long."⟩),
       ((pySplit s '-').any (fun t => !pyIsAlnum t),
        ⟨.valueError, "Wild slug terms can only be alphanumeric."⟩),
       ((pySplit s '-').length ≠ (pySplit s '-').eraseDups.length,
        ⟨.valueError, "Wild slug terms cannot be duplicated."⟩)]
  | _ => some ⟨.valueError, "Wild slug must be a string."⟩

/-- Spec §4.2 `validate_packaging_slug`: the ordered checklist. -/
def packagingSlugFirstViolation (v : PyVal) : Option PyError :=
  match v with
  | .str s =>
    firstViolated
      [(s.isEmpty, ⟨.valueError, "Packaging slug cannot be empty."⟩),
       (s.length > 64, ⟨.valueError, "Packaging slug cannot be longer than 64 characters."⟩),
       (!pyIsUpper s,
        ⟨.valueError, "Packaging slug can only contain uppercase letters, hyphens and slashes."⟩),
       (!pyEndsWith s '/', ⟨.valueError, "Packaging slug must end with a slash."⟩),
       (s.count '/' ≠ 1, ⟨.valueError, "Packaging slug can only contain one slash."⟩),
       ((pySplit ((pySplit s '/').headD []) '-').length < 2 ∨
          (pySplit ((pySplit s '/').headD []) '-').length > 5,
        ⟨.valueError, "Packaging slug must contain two to five terms separated by hyphens."⟩),
       ((pySplit ((pySplit s '/').headD []) '-').any (fun t => t.length < 2),
        ⟨.valueError, "Packaging slug terms must be at least two characters long."⟩),
       ((pySplit ((pySplit s '/').headD []) '-').any (fun t => !pyIsAlnum t),
        ⟨.valueError, "Packaging slug terms can only be alphanumeric."⟩),
       ((pySplit ((pySplit s '/').headD []) '-').length ≠
          (pySplit ((pySplit s '/').headD []) '-').eraseDups.length,
        ⟨.valueError, "Packaging slug terms cannot be duplicated."⟩)]
  | _ => some ⟨.valueError, "Packaging slug must be a string."⟩

/-- Spec §4.2 `validate_slug`: its own ordered checks, then delegation
to the packaging checklist on the part before the `/` (with `/`
re-appended) and, when the wild part is non-empty, to the wild
checklist; the first violation anywhere is the reported one. -/
def slugFirstViolation (v : PyVal) : Option PyError :=
  match v with
  | .str s =>
    match
      firstViolated
        [(s.isEmpty, ⟨.valueError, "Full slug cannot be empty."⟩),
         (s.length > 64, ⟨.valueError, "Full slug cannot be longer than 64 characters."⟩),
         (s.count '/' ≠ 1, ⟨.valueError, "Full slug can only contain one slash."⟩)] with
    | some e => some e
    | none =>
      match pySplit s '/' with
      | [p, w] =>
        match packagingSlugFirstViolation (.str (p ++ ['/'])) with
        | some e => some e
        | none => if !w.isEmpty then wildSlugFirstViolation (.str w) else none
      | _ => some ⟨.valueError, "too many values to unpack (expected 2)"⟩
  | _ => some ⟨.valueError, "Full slug must be a string."⟩

instance : DecidableEq (Except PyError Bool) := fun a b =>
  match a, b with
  | .ok x, .ok y =>
    if h : x = y then .isTrue (by rw [h]) else .isFalse (by simp [h])
  | .error x, .error y =>
    if h : x = y then .isTrue (by rw [h]) else .isFalse (by simp [h])
  | .ok _, .error _ => .isFalse (by simp)
  | .error _, .ok _ => .isFalse (by simp)

instance decidableForallLT (n : Nat) (P : Nat → Prop) [DecidablePred P] :
    Decidable (∀ i, i < n → P i) :=
  decidable_of_iff (∀ x, 0 ≤ x → x < n → P x)
    ⟨fun a i h => a i (Nat.zero_le i) h, fun a i _ h => a i h⟩

lemma validate_wild_slug_eq (v : PyVal) :
    validate_wild_slug v = ofViolation (wildSlugFirstViolation v) := by
  cases v with
  | str s =>
    simp only [validate_wild_slug, wildSlugFirstViolation, firstViolated,
      decide_eq_true_eq]
    simp only [apply_ite ofViolation]
    simp only [ofViolation]
  | intVal n => rfl
  | noneVal => rfl

lemma validate_packaging_slug_eq (v : PyVal) :
    validate_packaging_slug v = ofViolation (packagingSlugFirstViolation v) := by
  cases v with
  | str s =>
    simp only [validate_packaging_slug, packagingSlugFirstViolation, firstViolated,
      decide_eq_true_eq]
    simp only [apply_ite ofViolation]
    simp only [ofViolation]
  | intVal n => rfl
  | noneVal => rfl

lemma validate_slug_eq (v : PyVal) :
    validate_slug v = ofViolation (slugFirstViolation v) := by
  cases v with
  | str s =>
    simp only [validate_slug, slugFirstViolation, firstViolated, decide_eq_true_eq]
    by_cases h1 : s.isEmpty = true
    · simp [h1, ofViolation]
    · by_cases h2 : s.length > 64
      · simp [h1, h2, ofViolation]
      · by_cases h3 : s.count '/' ≠ 1
        · simp [h1, h2, h3, ofViolation]
        · simp only [h1, h2, h3, if_false, if_neg, not_false_eq_true]
          cases hsp : pySplit s '/' with
          | nil => simp [ofViolation]
          | cons p rest =>
            cases rest with
            | nil => simp [ofViolation]
            | cons w rest2 =>
              cases rest2 with
              | cons q rest3 => simp [ofViolation]
              | nil =>
                simp only [validate_packaging_slug_eq]
                cases hp : packagingSlugFirstViolation (.str (p ++ ['/'])) with
                | some e => simp [ofViolation, Bind.bind, Except.bind]
                | none =>
                  by_cases hw : !w.isEmpty = true
                  · simp only [hw, if_true, ofViolation, Bind.bind, Except.bind,
                      validate_wild_slug_eq]
                    cases hwv : wildSlugFirstViolation (.str w) <;>
                      simp_all [ofViolation, Pure.pure, Except.pure]
                  · simp_all [ofViolation, Bind.bind, Except.bind, Pure.pure, Except.pure]
  | intVal n => rfl
  | noneVal => rfl

lemma isLower_eq_false_of_isUpper {c : Char} (h : c.isUpper = true) :
    c.isLower = false := by
  simp only [Char.isUpper, Bool.and_eq_true, decide_eq_true_eq, ge_iff_le] at h
  have h90 : c.val.toNat ≤ 90 := UInt32.toNat_le_of_le (by decide) h.2
  simp only [Char.isLower, Bool.and_eq_false_iff, decide_eq_false_iff_not, ge_iff_le]
  refine Or.inl fun h97 => ?_
  have h97' : 97 ≤ c.val.toNat := UInt32.le_toNat_of_le (by decide) h97
  omega

lemma pyIsUpper_eq (s : List Char) :
    pyIsUpper s = (s.any Char.isUpper && s.all fun c => !c.isLower) := by
  rw [Bool.eq_iff_iff]
  simp only [pyIsUpper, pyIsCased, Bool.and_eq_true, List.any_eq_true, List.all_eq_true,
    Bool.or_eq_true, Bool.not_eq_true']
  constructor
  · rintro ⟨⟨c, hc, hcased⟩, hall⟩
    refine ⟨⟨c, hc, ?_⟩, fun x hx => ?_⟩
    · have h := hall c hc
      cases hu : c.isUpper
      · cases hl : c.isLower
        · simp_all
        · simp_all
      · rfl
    · have h := hall x hx
      cases hu : x.isUpper
      · cases hl : x.isLower
        · rfl
        · simp_all
      · exact isLower_eq_false_of_isUpper hu
  · rintro ⟨⟨c, hc, hup⟩, hall⟩
    refine ⟨⟨c, hc, Or.inl hup⟩, fun x hx => ?_⟩
    cases hu : x.isUpper
    · simp [hu, hall x hx]
    · simp [hu]

lemma pySplit_ne_nil (s : List Char) (sep : Char) : pySplit s sep ≠ [] := by
  induction s with
  | nil => simp [pySplit]
  | cons c cs ih =>
    simp only [pySplit]
    by_cases h : c = sep
    · simp [h]
    · simp only [h, if_false]
      cases hx : pySplit cs sep with
      | nil => simp
      | cons t ts => simp

lemma pySplit_length (s : List Char) (sep : Char) :
    (pySplit s sep).length = s.count sep + 1 := by
  induction s with
  | nil => simp [pySplit]
  | cons c cs ih =>
    simp only [pySplit]
    by_cases h : c = sep
    · subst h
      simp [List.count_cons_self, ih]
    · simp only [h, if_false]
      cases hx : pySplit cs sep with
      | nil => exact absurd hx (pySplit_ne_nil cs sep)
      | cons t ts =>
        rw [hx] at ih
        simp only [List.length_cons] at ih ⊢
        rw [List.count_cons_of_ne (fun hs => h hs.symm)]
        omega

lemma pySplit_sep_not_mem (s : List Char) (sep : Char) :
    ∀ t ∈ pySplit s sep, sep ∉ t := by
  induction s with
  | nil =>
    intro t ht
    simp only [pySplit, List.mem_singleton] at ht
    simp [ht]
  | cons c cs ih =>
    simp only [pySplit]
    by_cases h : c = sep
    · simp only [h, if_true, ite_true]
      intro t ht
      rcases List.mem_cons.mp ht with rfl | hmem
      · simp
      · exact ih t hmem
    · simp only [h, if_false]
      cases hx : pySplit cs sep with
      | nil => exact absurd hx (pySplit_ne_nil cs sep)
      | cons t0 ts =>
        intro t ht
        rcases List.mem_cons.mp ht with rfl | hmem
        · intro hsep
          rcases List.mem_cons.mp hsep with rfl | hmem0
          · exact h rfl
          · exact ih t0 (hx ▸ List.mem_cons_self t0 ts) hmem0
        · exact ih t (hx ▸ List.mem_cons_of_mem t0 hmem)

lemma validate_wild_slug_error_subject (v : PyVal) (e : PyError)
    (h : validate_wild_slug v = .error e) :
    e ≠ ⟨.valueError, "Packaging slug must end with a slash."⟩ ∧
    e ≠ ⟨.valueError, "Packaging slug can only contain one slash."⟩ := by
  cases v with
  | str s =>
    simp only [validate_wild_slug] at h
    split_ifs at h <;>
      (injection h with h'; subst h'; exact ⟨by decide, by decide⟩)
  | intVal n =>
    injection h with h'
    subst h'
    exact ⟨by decide, by decide⟩
  | noneVal =>
    injection h with h'
    subst h'
    exact ⟨by decide, by decide⟩

lemma validate_packaging_slug_error_on_slashless (p : List Char) (hp : '/' ∉ p)
    (e : PyError) (h : validate_packaging_slug (.str (p ++ ['/'])) = .error e) :
    e ≠ ⟨.valueError, "Packaging slug must end with a slash."⟩ ∧
    e ≠ ⟨.valueError, "Packaging slug can only contain one slash."⟩ := by
  have hends : pyEndsWith (p ++ ['/']) '/' = true := by
    simp [pyEndsWith, List.getLast?_concat]
  have hcount : (p ++ ['/']).count '/' = 1 := by
    rw [List.count_append, List.count_eq_zero.mpr hp]
    simp
  simp only [validate_packaging_slug, hends, hcount, Bool.not_true, Bool.false_eq_true,
    if_false, ne_eq, not_true_eq_false] at h
  split_ifs at h <;>
    (injection h with h'; subst h'; exact ⟨by decide, by decide⟩)

lemma validate_slug_error_not_packaging_slash (v : PyVal) (e : PyError)
    (h : validate_slug v = .error e) :
    e ≠ ⟨.valueError, "Packaging slug must end with a slash."⟩ ∧
    e ≠ ⟨.valueError, "Packaging slug can only contain one slash."⟩ := by
  cases v with
  | str s =>
    simp only [validate_slug] at h
    split_ifs at h with h1 h2 h3
    · injection h with h'; subst h'; exact ⟨by decide, by decide⟩
    · injection h with h'; subst h'; exact ⟨by decide, by decide⟩
    · injection h with h'; subst h'; exact ⟨by decide, by decide⟩
    · cases hsp : pySplit s '/' with
      | nil =>
        rw [hsp] at h
        injection h with h'; subst h'; exact ⟨by decide, by decide⟩
      | cons p rest =>
        cases rest with
        | nil =>
          rw [hsp] at h
          injection h with h'; subst h'; exact ⟨by decide, by decide⟩
        | cons w rest2 =>
          cases rest2 with
          | cons q rest3 =>
            rw [hsp] at h
            injection h with h'; subst h'; exact ⟨by decide, by decide⟩
          | nil =>
            rw [hsp] at h
            dsimp only at h
            have hp : '/' ∉ p :=
              pySplit_sep_not_mem s '/' p (hsp ▸ List.mem_cons_self p [w])
            cases hpk : validate_packaging_slug (.str (p ++ ['/'])) with
            | error e2 =>
              rw [hpk] at h
              simp only [Bind.bind, Except.bind] at h
              injection h with h'
              subst h'
              exact validate_packaging_slug_error_on_slashless p hp _ hpk
            | ok b =>
              rw [hpk] at h
              simp only [Bind.bind, Except.bind] at h
              cases hwe : w.isEmpty with
              | true =>
                rw [hwe] at h
                simp only [Bool.not_true, Bool.false_eq_true, if_false, Pure.pure,
                  Except.pure] at h
                cases h
              | false =>
                rw [hwe] at h
                simp only [Bool.not_false] at h
                simp only [if_true] at h
                cases hwv : validate_wild_slug (.str w) with
                | error e3 =>
                  rw [hwv] at h
                  simp only [Bind.bind, Except.bind] at h
                  injection h with h'
                  subst h'
                  exact validate_wild_slug_error_subject (.str w) _ hwv
                | ok b2 =>
                  rw [hwv] at h
                  simp only [Bind.bind, Except.bind, Pure.pure, Except.pure] at h
                  cases h
  | intVal n =>
    injection h with h'; subst h'; exact ⟨by decide, by decide⟩
  | noneVal =>
    injection h with h'; subst h'; exact ⟨by decide, by decide⟩

/-- C1: each of `validate_slug`, `validate_packaging_slug` and
`validate_wild_slug` runs its checks in the specified order and, at the
first violated check, fails with exactly that check's message (naming
the subject); later checks are not consulted, and `true` is returned
exactly when no check is violated.  Formally, each validator coincides
with the fail-fast evaluation (`ofViolation` / `firstViolated`) of its
spec-side ordered rule list on every input. -/
theorem validators_fail_fast_in_order :
    (∀ v, validate_slug v = ofViolation (slugFirstViolation v)) ∧
    (∀ v, validate_packaging_slug v = ofViolation (packagingSlugFirstViolation v)) ∧
    (∀ v, validate_wild_slug v = ofViolation (wildSlugFirstViolation v)) :=
  ⟨validate_slug_eq, validate_packaging_slug_eq, validate_wild_slug_eq⟩

/-- C5 counterexample: `"1234"` is a string that passes the type,
non-empty and length checks and contains no lowercase letters, yet the
uppercase check of `validate_wild_slug` fails on it (Python's
`isupper()` also demands at least one cased character), with the quoted
message. -/
theorem wild_uppercase_no_lowercase_refuted :
    ("1234".toList.all fun c => !c.isLower) = true ∧
    "1234".toList ≠ [] ∧
    "1234".toList.length ≤ 64 ∧
    validate_wild_slug (.str "1234".toList) =
      .error ⟨.valueError,
        "Wild slug can only contain uppercase letters, hyphens and slashes."⟩ :=
  ⟨by decide, by decide, by decide, rfl⟩

/-- C5 amended: for strings passing the type, non-empty and length
checks, the uppercase check of `validate_wild_slug` passes iff the
string contains at least one uppercase letter *and* no lowercase
letters (Python `isupper()` semantics); when it fails, the failure is
the quoted message. -/
theorem wild_uppercase_check_iff (s : List Char)
    (h1 : s ≠ []) (h2 : s.length ≤ 64) :
    validate_wild_slug (.str s) =
        .error ⟨.valueError,
          "Wild slug can only contain uppercase letters, hyphens and slashes."⟩
      ↔ ¬((s.any fun c => c.isUpper) = true ∧ (s.all fun c => !c.isLower) = true) := by
  have hne : s.isEmpty = false := by simpa [List.isEmpty_iff] using h1
  have hlen : ¬s.length > 64 := by omega
  constructor
  · intro h hcon
    rcases hcon with ⟨ha, hb⟩
    have hup : pyIsUpper s = true := by rw [pyIsUpper_eq, ha, hb]; rfl
    simp only [validate_wild_slug, hne, Bool.false_eq_true, if_false, hlen, hup,
      Bool.not_true] at h
    split_ifs at h <;>
      (injection h with h'; exact absurd h' (by decide))
  · intro h
    have hup : pyIsUpper s = false := by
      rw [pyIsUpper_eq]
      rcases Bool.eq_false_or_eq_true (s.any fun c => c.isUpper) with ha | ha
      · rcases Bool.eq_false_or_eq_true (s.all fun c => !c.isLower) with hb | hb
        · exact absurd ⟨ha, hb⟩ h
        · rw [ha, hb]
          decide
      · rw [ha]
        exact Bool.false_and _
    simp [validate_wild_slug, hne, hlen, hup]

/-- C5 amended, witness at the concrete string "PROSPECTUS". -/
theorem wild_uppercase_check_iff_witness :
    validate_wild_slug (.str "PROSPECTUS".toList) =
        .error ⟨.valueError,
          "Wild slug can only contain uppercase letters, hyphens and slashes."⟩
      ↔ ¬(("PROSPECTUS".toList.any fun c => c.isUpper) = true ∧
          ("PROSPECTUS".toList.all fun c => !c.isLower) = true) :=
  wild_uppercase_check_iff "PROSPECTUS".toList (by decide) (by decide)

/-- C6 counterexample: for a non-string input the validators raise a
`ValueError`-class failure (the single validation-failure class used
throughout), not a `TypeError`-class one. -/
theorem non_string_failure_class_refuted :
    validate_wild_slug PyVal.noneVal =
      .error ⟨.valueError, "Wild slug must be a string."⟩ ∧
    validate_packaging_slug PyVal.noneVal =
      .error ⟨.valueError, "Packaging slug must be a string."⟩ ∧
    validate_slug PyVal.noneVal =
      .error ⟨.valueError, "Full slug must be a string."⟩ ∧
    ExcClass.valueError ≠ ExcClass.typeError :=
  ⟨rfl, rfl, rfl, by decide⟩

/-- C6 amended: for every non-string input, each validator raises a
`ValueError`-class validation failure whose message states the subject
"must be a string". -/
theorem non_string_input_fails (v : PyVal) (h : ∀ s, v ≠ PyVal.str s) :
    validate_wild_slug v = .error ⟨.valueError, "Wild slug must be a string."⟩ ∧
    validate_packaging_slug v = .error ⟨.valueError, "Packaging slug must be a string."⟩ ∧
    validate_slug v = .error ⟨.valueError, "Full slug must be a string."⟩ := by
  cases v with
  | str s => exact absurd rfl (h s)
  | intVal n => exact ⟨rfl, rfl, rfl⟩
  | noneVal => exact ⟨rfl, rfl, rfl⟩

/-- C6 amended, witness at the concrete non-string input `3`. -/
theorem non_string_input_fails_witness :
    validate_wild_slug (PyVal.intVal 3) =
      .error ⟨.valueError, "Wild slug must be a string."⟩ ∧
    validate_packaging_slug (PyVal.intVal 3) =
      .error ⟨.valueError, "Packaging slug must be a string."⟩ ∧
    validate_slug (PyVal.intVal 3) =
      .error ⟨.valueError, "Full slug must be a string."⟩ :=
  non_string_input_fails (PyVal.intVal 3) (fun _ h => PyVal.noConfusion h)

/-- C7: packaging-slug boundary behaviour: a prefix of exactly 2
hyphen-separated terms of length 2 each passes; a 1-term prefix and a
6-term prefix fail with the term-count message; a term of length 1
fails with the term-length message. -/
theorem packaging_slug_term_boundaries :
    validate_packaging_slug (.str "AB-CD/".toList) = .ok true ∧
    validate_packaging_slug (.str "AB/".toList) =
      .error ⟨.valueError,
        "Packaging slug must contain two to five terms separated by hyphens."⟩ ∧
    validate_packaging_slug (.str "AB-CD-EF-GH-IJ-KL/".toList) =
      .error ⟨.valueError,
        "Packaging slug must contain two to five terms separated by hyphens."⟩ ∧
    validate_packaging_slug (.str "A-BC/".toList) =
      .error ⟨.valueError,
        "Packaging slug terms must be at least two characters long."⟩ :=
  ⟨rfl, rfl, rfl, rfl⟩

/-- C9: a `Slug` built from a packaging/wild pair whose concatenation
is a valid full slug validates to `true`, and its `full_slug` is the
concatenation. -/
theorem slug_round_trip (p w : List Char)
    (h : validate_slug (.str (p ++ w)) = .ok true) :
    Slug.validate ⟨p, w⟩ = .ok true ∧ Slug.full_slug ⟨p, w⟩ = p ++ w :=
  ⟨h, rfl⟩

/-- C9 witness at `FERRARI-IPO/` + `PROSPECTUS`. -/
theorem slug_round_trip_witness :
    Slug.validate ⟨"FERRARI-IPO/".toList, "PROSPECTUS".toList⟩ = .ok true ∧
    Slug.full_slug ⟨"FERRARI-IPO/".toList, "PROSPECTUS".toList⟩ =
      "FERRARI-IPO/".toList ++ "PROSPECTUS".toList :=
  slug_round_trip "FERRARI-IPO/".toList "PROSPECTUS".toList (by rfl)

/-- C10: `validate_slug` can never raise the "must end with a slash" or
"can only contain one slash" failures of `validate_packaging_slug`: the
part it passes on always ends in exactly one `/`. -/
theorem validate_slug_never_packaging_slash_errors (v : PyVal) :
    validate_slug v ≠
      .error ⟨.valueError, "Packaging slug must end with a slash."⟩ ∧
    validate_slug v ≠
      .error ⟨.valueError, "Packaging slug can only contain one slash."⟩ := by
  constructor
  · intro h
    exact (validate_slug_error_not_packaging_slash v _ h).1 rfl
  · intro h
    exact (validate_slug_error_not_packaging_slash v _ h).2 rfl

lemma decDigits_fuel_irrel : ∀ n f g : Nat, n < f → n < g →
    decDigits f n = decDigits g n := by
  intro n
  induction n using Nat.strong_induction_on with
  | _ n ih =>
    intro f g hf hg
    cases f with
    | zero => omega
    | succ f =>
      cases g with
      | zero => omega
      | succ g =>
        simp only [decDigits]
        by_cases h : n < 10
        · simp [h]
        · have hlt : n / 10 < n := Nat.div_lt_self (by omega) (by omega)
          simp only [h, if_false]
          rw [ih (n / 10) hlt f g (by omega) (by omega)]

lemma decDigits_length : ∀ n f : Nat, n < f →
    (decDigits f n).length = Nat.log 10 n + 1 := by
  intro n
  induction n using Nat.strong_induction_on with
  | _ n ih =>
    intro f hf
    cases f with
    | zero => omega
    | succ f =>
      simp only [decDigits]
      by_cases h : n < 10
      · have hlog : Nat.log 10 n = 0 := Nat.log_eq_zero_iff.mpr (Or.inl h)
        simp [h, hlog]
      · have h10 : 10 ≤ n := Nat.le_of_not_lt h
        have hlt : n / 10 < n := Nat.div_lt_self (by omega) (by omega)
        simp only [h, if_false, List.length_append, List.length_singleton]
        rw [ih (n / 10) hlt f (by omega), Nat.log_div_base]
        have hpos : 0 < Nat.log 10 n := Nat.log_pos (by omega) h10
        omega

lemma pyStr_length (n : Nat) : (pyStr n).length = Nat.log 10 n + 1 :=
  decDigits_length n (n + 1) (by omega)

lemma pyStr_length_four {n : Nat} (h1 : 1000 ≤ n) (h2 : n ≤ 9999) :
    (pyStr n).length = 4 := by
  rw [pyStr_length]
  have hlog : Nat.log 10 n = 3 :=
    Nat.log_eq_of_pow_le_of_lt_pow (by norm_num; omega) (by norm_num; omega)
  omega

/-- C2: before the timezone-suffix policy, `time` renders minute 0 at
hour 0 as exactly "midnight" and at hour 12 as exactly "noon"; for any
minute 1–59 the rendered time never contains "noon" or "midnight"; the
exact "12 a.m."/"12 p.m." forms are never produced; and the
noon/midnight literals are never followed by a colon form. -/
theorem time_noon_midnight_exact :
    ∀ h : Nat, h < 24 → ∀ m : Nat, m < 60 →
      ((m = 0 ∧ h = 0) → timeBase h m = "midnight") ∧
      ((m = 0 ∧ h = 12) → timeBase h m = "noon") ∧
      (1 ≤ m → containsSub "noon".toList (timeBase h m).toList = false ∧
               containsSub "midnight".toList (timeBase h m).toList = false) ∧
      timeBase h m ≠ "12 a.m." ∧
      timeBase h m ≠ "12 p.m." ∧
      containsSub "noon:".toList (timeBase h m).toList = false ∧
      containsSub "midnight:".toList (timeBase h m).toList = false := by
  decide

/-- C2 witness at concrete clock readings. -/
theorem time_noon_midnight_exact_witness :
    timeBase 0 0 = "midnight" ∧ timeBase 12 0 = "noon" ∧
    containsSub "noon".toList (timeBase 12 30).toList = false ∧
    timeBase 23 0 ≠ "12 p.m." :=
  ⟨(time_noon_midnight_exact 0 (by decide) 0 (by decide)).1 ⟨rfl, rfl⟩,
   (time_noon_midnight_exact 12 (by decide) 0 (by decide)).2.1 ⟨rfl, rfl⟩,
   ((time_noon_midnight_exact 12 (by decide) 30 (by decide)).2.2.1 (by decide)).1,
   (time_noon_midnight_exact 23 (by decide) 0 (by decide)).2.2.2.2.1⟩

/-- C3: with `include_timezone = false`, a timezone-aware timestamp
whose zone is not exactly `timezone.utc` gets the 12-hour text followed
by " (HHMM GMT)", HHMM being the zero-padded 24-hour clock of the
timestamp converted to UTC; a naive or exactly-UTC timestamp gets
nothing appended. -/
theorem time_without_tz_appends_utc_conversion (dt : PyDatetime) :
    (dt.tzinfo = none → time dt false = timeBase dt.hour dt.minute) ∧
    (∀ tz, dt.tzinfo = some tz → tz.eqUtc = true →
      time dt false = timeBase dt.hour dt.minute) ∧
    (∀ tz, dt.tzinfo = some tz → tz.eqUtc = false →
      time dt false = timeBase dt.hour dt.minute ++ " (" ++
        pad2 (utcMinutesOfDay dt tz.utcoffsetMinutes / 60) ++
        pad2 (utcMinutesOfDay dt tz.utcoffsetMinutes % 60) ++ " GMT)") := by
  refine ⟨fun hn => ?_, fun tz htz hq => ?_, fun tz htz hq => ?_⟩
  · simp [time, hn]
  · simp [time, htz, hq]
  · simp [time, utcHHMM, htz, hq, String.append_assoc]

/-- C3 witness: 12:30 in a UTC+2 zone renders with "(1030 GMT)". -/
theorem time_without_tz_appends_utc_conversion_witness :
    time ⟨2021, 9, 1, 12, 30, some ⟨"SAST", 120, false⟩⟩ false =
      timeBase 12 30 ++ " (" ++
        pad2 (utcMinutesOfDay ⟨2021, 9, 1, 12, 30, some ⟨"SAST", 120, false⟩⟩ 120 / 60) ++
        pad2 (utcMinutesOfDay ⟨2021, 9, 1, 12, 30, some ⟨"SAST", 120, false⟩⟩ 120 % 60) ++
        " GMT)" :=
  (time_without_tz_appends_utc_conversion
      ⟨2021, 9, 1, 12, 30, some ⟨"SAST", 120, false⟩⟩).2.2
    ⟨"SAST", 120, false⟩ rfl rfl

/-- C4: with `include_timezone = true`, an aware timestamp gets a space
and its zone abbreviation, with "GMT" substituted whenever the native
abbreviation is "UTC" (so the appended abbreviation is never "UTC");
a naive timestamp gets " GMT". -/
theorem time_with_tz_appends_abbreviation (dt : PyDatetime) :
    (dt.tzinfo = none → time dt true = timeBase dt.hour dt.minute ++ " GMT") ∧
    (∀ tz, dt.tzinfo = some tz →
      time dt true = timeBase dt.hour dt.minute ++ " " ++
        (if tz.abbreviation = "UTC" then "GMT" else tz.abbreviation) ∧
      (if tz.abbreviation = "UTC" then "GMT" else tz.abbreviation) ≠ "UTC") := by
  refine ⟨fun hn => ?_, fun tz htz => ⟨?_, ?_⟩⟩
  · simp [time, hn]
  · simp [time, htz]
  · by_cases habb : tz.abbreviation = "UTC"
    · simp [habb]
    · simp [habb]

/-- C4 witness: a zone abbreviated "UTC" is displayed as "GMT". -/
theorem time_with_tz_appends_abbreviation_witness :
    time ⟨2021, 9, 1, 12, 30, some ⟨"UTC", 0, true⟩⟩ true =
      timeBase 12 30 ++ " " ++
        (if ("UTC" : String) = "UTC" then "GMT" else "UTC") ∧
    (if ("UTC" : String) = "UTC" then "GMT" else "UTC") ≠ "UTC" :=
  (time_with_tz_appends_abbreviation
      ⟨2021, 9, 1, 12, 30, some ⟨"UTC", 0, true⟩⟩).2 ⟨"UTC", 0, true⟩ rfl

/-- C8: `date` renders "<Month> <day>, <year>" with the month
abbreviation chosen by month number from the fixed 12-entry list, the
day as a plain decimal with no leading zero, and the year as 4 digits
(for the 4-digit year range; `%Y` rendering of earlier years is
platform-dependent in Python); the two concrete examples evaluate as
specified. -/
theorem date_month_day_year (dt : PyDatetime)
    (_h1 : 1 ≤ dt.month) (_h2 : dt.month ≤ 12) (h3 : 1 ≤ dt.day) (h4 : dt.day ≤ 31)
    (h5 : 1000 ≤ dt.year) (h6 : dt.year ≤ 9999) :
    date dt = months.getD (dt.month - 1) "" ++ " " ++ pyStr dt.day ++ ", " ++
      pyStr dt.year ∧
    months = ["Jan.", "Feb.", "March", "April", "May", "June", "July", "Aug.",
      "Sept.", "Oct.", "Nov.", "Dec."] ∧
    (pyStr dt.day).toList.head? ≠ some '0' ∧
    (pyStr dt.year).length = 4 ∧
    date ⟨2021, 9, 1, 0, 0, none⟩ = "Sept. 1, 2021" ∧
    date ⟨2021, 3, 1, 0, 0, none⟩ = "March 1, 2021" := by
  refine ⟨rfl, rfl, ?_, pyStr_length_four h5 h6, rfl, rfl⟩
  have key : ∀ d : Nat, 1 ≤ d → d ≤ 31 → (pyStr d).toList.head? ≠ some '0' := by
    decide
  exact key dt.day h3 h4

/-- C8 witness at 2021-09-01. -/
theorem date_month_day_year_witness :
    date ⟨2021, 9, 1, 0, 0, none⟩ = months.getD (9 - 1) "" ++ " " ++ pyStr 1 ++ ", " ++
      pyStr 2021 ∧
    (pyStr 1).toList.head? ≠ some '0' ∧
    (pyStr 2021).length = 4 ∧
    date ⟨2021, 9, 1, 0, 0, none⟩ = "Sept. 1, 2021" := by
  have h := date_month_day_year ⟨2021, 9, 1, 0, 0, none⟩ (by decide) (by decide)
    (by decide) (by decide) (by decide) (by decide)
  exact ⟨h.1, h.2.2.1, h.2.2.2.1, h.2.2.2.2.1⟩

end ReutersStyle
